import Mathlib

/-!
Shallow embedding of the SEO-audit pipeline (`audit.py`) and the metric-card
computations of the dashboard (`seo_dashboard.py`).

A crawl relation is a list of rows.  Every column that pandas may hold as NaN
(numeric, timestamp or string) is modelled as an `Option`: `none` is the
missing value.  Numeric columns are rationals, the coerced `last modified`
timestamp is an integer count of seconds.  The `pd.to_numeric` /
`pd.to_datetime` coercions of `clean_data` send unparseable raw text to
missing; the embedding starts from the coerced values, so those two columns
are simply `Option`-typed here.  Pandas comparison semantics is kept: a
comparison of a missing value with a constant is false.
-/

set_option autoImplicit false

namespace SeoAudit

/-- One row of the crawl export, with the columns the pipeline reads.
Field names follow the normalized (lower-cased, trimmed) column names of
`clean_data`. -/
structure Row where
  address : String
  statusCode : Option Int
  contentType : Option String
  responseTime : Option Rat
  indexabilityStatus : Option String
  indexability : Option String
  canonicalLink : Option String
  title1 : Option String
  titleLength : Option Rat
  metaDescription : Option String
  metaLength : Option Rat
  wordCount : Option Rat
  fleschScore : Option Rat
  nearDuplicates : Option Rat
  similarityMatch : Option Rat
  crawlDepth : Option Rat
  inlinks : Option Rat
  outlinks : Option Rat
  linkScore : Option Rat
  sizeBytes : Option Rat
  lastModified : Option Int
  httpVersion : Option String
deriving DecidableEq

/-- A row with every field missing and an empty address; concrete inputs are
built by updating the fields a scenario mentions. -/
def blankRow : Row :=
  { address := "", statusCode := none, contentType := none, responseTime := none
    indexabilityStatus := none, indexability := none, canonicalLink := none
    title1 := none, titleLength := none, metaDescription := none, metaLength := none
    wordCount := none, fleschScore := none, nearDuplicates := none
    similarityMatch := none, crawlDepth := none, inlinks := none, outlinks := none
    linkScore := none, sizeBytes := none, lastModified := none, httpVersion := none }

/-- Pandas semantics of `series < c` for a possibly missing rational:
`NaN < c` is false. -/
def optLt (o : Option Rat) (c : Rat) : Bool :=
  match o with
  | none => false
  | some v => decide (v < c)

/-- Pandas semantics of `series > c` for a possibly missing rational. -/
def optGt (o : Option Rat) (c : Rat) : Bool :=
  match o with
  | none => false
  | some v => decide (c < v)

/-- Pandas semantics of `series < c` for a possibly missing timestamp
(`NaT < c` is false). -/
def optLtInt (o : Option Int) (c : Int) : Bool :=
  match o with
  | none => false
  | some v => decide (v < c)

/-- Pandas `series.between lo hi` (inclusive on both ends, false on NaN). -/
def optBetween (o : Option Int) (lo hi : Int) : Bool :=
  match o with
  | none => false
  | some v => decide (lo ≤ v ∧ v ≤ hi)

/-- Whether the first character list starts with the second. -/
def startsWithChars : List Char → List Char → Bool
  | _, [] => true
  | [], _ :: _ => false
  | c :: cs, d :: ds => c == d && startsWithChars cs ds

/-- Whether the pattern occurs as a contiguous run inside the character
list. -/
def hasSubChars (pat : List Char) : List Char → Bool
  | [] => startsWithChars [] pat
  | c :: cs => startsWithChars (c :: cs) pat || hasSubChars pat cs

/-- Pandas `series.str.contains pat (na := False)`: case-sensitive substring
occurrence for a present string, false for a missing one. -/
def optContains (o : Option String) (pat : String) : Bool :=
  match o with
  | none => false
  | some s => hasSubChars pat.toList s.toList

/-- `df.fillna` step of `clean_data`: the two length columns default to `0`
when missing; every other column keeps its native missing value. -/
def fillDefaults (r : Row) : Row :=
  { r with titleLength := some (r.titleLength.getD 0)
           metaLength := some (r.metaLength.getD 0) }

/-- The HTML-partition test of `clean_data`: content type contains the
case-sensitive marker `"text/html"`, missing content types excluded. -/
def isHtmlRow (r : Row) : Bool :=
  optContains r.contentType "text/html"

/-- `df.drop_duplicates(subset=['address'])`: keep the first row of each
address, silently drop later rows with an address already seen. -/
def dedupBy (seen : List String) : List Row → List Row
  | [] => []
  | r :: rs =>
      if r.address ∈ seen then dedupBy seen rs
      else r :: dedupBy (r.address :: seen) rs

/-- `clean_data`: fill the two length defaults, coerce (already reflected in
the `Option` typing), carve the HTML partition out of the filled relation,
then deduplicate the working relation by address.  As in the source, the HTML
partition is taken BEFORE deduplication and is not itself deduplicated.
Returns `(df, html_df)`. -/
def clean_data (raw : List Row) : List Row × List Row :=
  let filled := raw.map fillDefaults
  let html_df := filled.filter isHtmlRow
  let df := dedupBy [] filled
  (df, html_df)

/-- `total_urls = len(df)` of `analyze_crawl_overview`. -/
def total_urls (df : List Row) : Nat := df.length

/-- `slow_pages` of `analyze_crawl_overview`: response time strictly above
half a second. -/
def slow_pages (df : List Row) : List Row :=
  df.filter (fun r => optGt r.responseTime (mkRat 1 2))

/-- `non_index` of `analyze_indexability`: indexability status contains
`"Non-Indexable"`. -/
def non_index (df : List Row) : List Row :=
  df.filter (fun r => optContains r.indexabilityStatus "Non-Indexable")

/-- `missing_canonical` of `analyze_indexability`: the canonical link element
is missing (`isna`); any present value, the empty string included, fails the
test. -/
def missing_canonical (df : List Row) : List Row :=
  df.filter (fun r => r.canonicalLink.isNone)

/-- `suboptimal_titles` of `analyze_onpage_seo`: title length strictly below
50 or strictly above 60. -/
def suboptimal_titles (df : List Row) : List Row :=
  df.filter (fun r => optLt r.titleLength 50 || optGt r.titleLength 60)

/-- `suboptimal_metas` of `analyze_onpage_seo`: meta description length
strictly below 150 or strictly above 160. -/
def suboptimal_metas (df : List Row) : List Row :=
  df.filter (fun r => optLt r.metaLength 150 || optGt r.metaLength 160)

/-- The row-selection step of `dup_titles` in `analyze_onpage_seo`:
`df.duplicated(subset=['title 1'], keep=False)` keeps exactly the rows whose
title value occurs in at least two rows (the artifact then groups the kept
addresses by title). -/
def dup_title_rows (df : List Row) : List Row :=
  df.filter (fun r => decide (2 ≤ (df.filter (fun s => decide (s.title1 = r.title1))).length))

/-- `thin_pages` of `analyze_content_quality`: word count strictly below
300. -/
def thin_pages (df : List Row) : List Row :=
  df.filter (fun r => optLt r.wordCount 300)

/-- `low_readability` of `analyze_content_quality`: Flesch reading ease score
strictly below 60. -/
def low_readability (df : List Row) : List Row :=
  df.filter (fun r => optLt r.fleschScore 60)

/-- Comparator of `sort_values('closest similarity match', ascending=False)`:
larger similarity first, rows with a missing similarity last. -/
def descBySimilarity (a b : Row) : Bool :=
  match a.similarityMatch, b.similarityMatch with
  | _, none => true
  | none, some _ => false
  | some x, some y => decide (y ≤ x)

/-- Comparator of `sort_values('link score')`: smaller link score first, rows
with a missing link score last. -/
def ascByLinkScore (a b : Row) : Bool :=
  match a.linkScore, b.linkScore with
  | _, none => true
  | none, some _ => false
  | some x, some y => decide (x ≤ y)

/-- Insert a row into a sorted list, keeping the comparator's order. -/
def insertSorted (le : Row → Row → Bool) (r : Row) : List Row → List Row
  | [] => [r]
  | s :: ss => if le r s then r :: s :: ss else s :: insertSorted le r ss

/-- Insertion sort of a row list by a comparator, modelling
`DataFrame.sort_values`. -/
def sortRows (le : Row → Row → Bool) : List Row → List Row
  | [] => []
  | r :: rs => insertSorted le r (sortRows le rs)

/-- `near_dups` of `analyze_content_quality`: near-duplicate count strictly
positive, sorted by closest similarity match, descending. -/
def near_dups (df : List Row) : List Row :=
  sortRows descBySimilarity (df.filter (fun r => optGt r.nearDuplicates 0))

/-- `deep_pages` of `analyze_site_architecture`: crawl depth strictly above
3. -/
def deep_pages (df : List Row) : List Row :=
  df.filter (fun r => optGt r.crawlDepth 3)

/-- `low_inlinks` of `analyze_site_architecture`: inlink count strictly below
5, sorted by link score, ascending. -/
def low_inlinks (df : List Row) : List Row :=
  sortRows ascByLinkScore (df.filter (fun r => optLt r.inlinks 5))

/-- `large_pages` of `analyze_performance`: size strictly above 100000
bytes. -/
def large_pages (df : List Row) : List Row :=
  df.filter (fun r => optGt r.sizeBytes 100000)

/-- `outdated` of `analyze_performance`: last-modified timestamp strictly
before `now - 365 days`; `now` is the wall-clock instant of the run
(`datetime.now()`), passed explicitly, in seconds. -/
def outdated (now : Int) (df : List Row) : List Row :=
  df.filter (fun r => optLtInt r.lastModified (now - 365 * 86400))

/-- `old_http` of `analyze_performance`: http version equal to the exact
string `"1.1"`; a missing value compares unequal. -/
def old_http (df : List Row) : List Row :=
  df.filter (fun r => decide (r.httpVersion = some "1.1"))

/-- The `4xx Errors` selection of `generate_report`:
`df['status code'].between(400, 499)`. -/
def errors_4xx (df : List Row) : List Row :=
  df.filter (fun r => optBetween r.statusCode 400 499)

/-- The multi-sheet `audit_report.xlsx` bundle of `generate_report`: one
field per sheet, each holding the projected rows of that sheet in order.
The tuple components are the projected columns, in the source's order. -/
structure Bundle where
  htmlPages : List (String × Option Int × Option String × Option String × Option Rat)
  errors4xx : List (String × Option Int)
  slowPages : List (String × Option Rat)
  missingCanonical : List (String × Option String)
  suboptimalTitles : List (String × Option String × Option Rat)
  suboptimalMetas : List (String × Option String × Option Rat)
  thinContent : List (String × Option Rat)
  lowReadability : List (String × Option Rat)
  nearDuplicates : List (String × Option Rat)
  deepPages : List (String × Option Rat)
  lowInlinks : List (String × Option Rat × Option Rat)
  largePages : List (String × Option Rat)
  outdatedPages : List (String × Option Int)
  http11Pages : List (String × Option String)
deriving DecidableEq

/-- Projection of the `Suboptimal Titles` sheet:
`['address', 'title 1', 'title 1 length']`. -/
def projTitles (r : Row) : String × Option String × Option Rat :=
  (r.address, r.title1, r.titleLength)

/-- `generate_report df html_df` at wall-clock instant `now`: every sheet
except `HTML Pages` filters and projects the deduplicated working relation
`df`; `HTML Pages` projects the HTML partition.  Sheets carry the same
predicates as the standalone artifacts but no sort. -/
def generate_report (df html_df : List Row) (now : Int) : Bundle where
  htmlPages :=
    html_df.map (fun r => (r.address, r.statusCode, r.title1, r.metaDescription, r.wordCount))
  errors4xx := (errors_4xx df).map (fun r => (r.address, r.statusCode))
  slowPages :=
    (df.filter (fun r => optGt r.responseTime (mkRat 1 2))).map
      (fun r => (r.address, r.responseTime))
  missingCanonical :=
    (df.filter (fun r => r.canonicalLink.isNone)).map (fun r => (r.address, r.indexability))
  suboptimalTitles :=
    (df.filter (fun r => optLt r.titleLength 50 || optGt r.titleLength 60)).map projTitles
  suboptimalMetas :=
    (df.filter (fun r => optLt r.metaLength 150 || optGt r.metaLength 160)).map
      (fun r => (r.address, r.metaDescription, r.metaLength))
  thinContent :=
    (df.filter (fun r => optLt r.wordCount 300)).map (fun r => (r.address, r.wordCount))
  lowReadability :=
    (df.filter (fun r => optLt r.fleschScore 60)).map (fun r => (r.address, r.fleschScore))
  nearDuplicates :=
    (df.filter (fun r => optGt r.nearDuplicates 0)).map (fun r => (r.address, r.similarityMatch))
  deepPages :=
    (df.filter (fun r => optGt r.crawlDepth 3)).map (fun r => (r.address, r.crawlDepth))
  lowInlinks :=
    (df.filter (fun r => optLt r.inlinks 5)).map (fun r => (r.address, r.inlinks, r.linkScore))
  largePages :=
    (df.filter (fun r => optGt r.sizeBytes 100000)).map (fun r => (r.address, r.sizeBytes))
  outdatedPages :=
    (df.filter (fun r => optLtInt r.lastModified (now - 365 * 86400))).map
      (fun r => (r.address, r.lastModified))
  http11Pages :=
    (df.filter (fun r => decide (r.httpVersion = some "1.1"))).map
      (fun r => (r.address, r.httpVersion))

/-- The `__main__` pipeline after a successful load, at wall-clock instant
`now`: clean, then build the report bundle from the working relation and the
HTML partition. -/
def runPipeline (raw : List Row) (now : Int) : Bundle :=
  let p := clean_data raw
  generate_report p.1 p.2 now

/-- The `__main__` block of `audit.py`: a failed load (`load_data` returned
`None`, i.e. the source file is absent) raises `SystemExit` before
`clean_data` or any analysis runs, so the run produces no bundle; otherwise
the whole pipeline runs. -/
def runMain (src : Option (List Row)) (now : Int) : Except String Bundle :=
  match src with
  | none => Except.error "Exiting due to file error."
  | some raw => Except.ok (runPipeline raw now)

/-- Dashboard `Total URLs` metric card: `len(data['html_pages'])`, the row
count of the bundle's `HTML Pages` sheet. -/
def totalUrlsCard (b : Bundle) : Nat := b.htmlPages.length

/-- Dashboard `Non-Indexable Pages` metric card:
`len(data['missing_canonical'])` — the `Missing Canonical` sheet's row count,
despite the card's label. -/
def nonIndexableCard (b : Bundle) : Nat := b.missingCanonical.length

/-- Dashboard `Missing Canonical` metric card:
`len(data['missing_canonical'])`. -/
def missingCanonicalCard (b : Bundle) : Nat := b.missingCanonical.length

/-! Concrete rows used by the scenario claims. -/

/-- Scenario row (a): status 200, response time 0.3 s, title length 55. -/
def rowA : Row :=
  { blankRow with address := "https://example.com/a", statusCode := some 200
                  contentType := some "text/html; charset=utf-8"
                  responseTime := some (mkRat 3 10), titleLength := some 55 }

/-- Scenario row (b): status 404, response time 0.8 s, title length 45. -/
def rowB : Row :=
  { blankRow with address := "https://example.com/b", statusCode := some 404
                  contentType := some "text/html; charset=utf-8"
                  responseTime := some (mkRat 8 10), titleLength := some 45 }

/-- Scenario row (c): status 200, response time 0.2 s, title length 65. -/
def rowC : Row :=
  { blankRow with address := "https://example.com/c", statusCode := some 200
                  contentType := some "text/html; charset=utf-8"
                  responseTime := some (mkRat 2 10), titleLength := some 65 }

/-- A non-HTML row (a PDF) whose title length is suboptimal. -/
def rowPdf : Row :=
  { blankRow with address := "https://example.com/file.pdf"
                  contentType := some "application/pdf", titleLength := some 10 }

/-- An HTML row used to exercise address deduplication. -/
def rowDupHtml : Row :=
  { blankRow with address := "https://example.com/dup"
                  contentType := some "text/html", titleLength := some 55 }

/-- A second raw occurrence of the same address as `rowDupHtml`, with a
different title length so the two occurrences are distinguishable. -/
def rowDupHtml2 : Row :=
  { blankRow with address := "https://example.com/dup"
                  contentType := some "text/html", titleLength := some 58 }

/-- A row flagged by the non-indexable rule but carrying a canonical link. -/
def rowNonIdx : Row :=
  { blankRow with address := "https://example.com/ni"
                  indexabilityStatus := some "Non-Indexable"
                  canonicalLink := some "https://example.com/canonical" }

/-- A row whose last-modified timestamp is the epoch instant `0`. -/
def rowStale : Row :=
  { blankRow with address := "https://example.com/old", lastModified := some 0 }

/-- A row whose only set field is a given title length. -/
def rowLen (n : Rat) : Row :=
  { blankRow with address := "https://example.com/len", titleLength := some n }

/-- A row whose canonical link element is present but empty. -/
def rowEmptyCanon : Row :=
  { blankRow with address := "https://example.com/ec", canonicalLink := some "" }

/-! Helper lemmas about the embedded list operations. -/

/-- Membership is invariant under sorted insertion. -/
theorem mem_insertSorted {le : Row → Row → Bool} {r s : Row} {l : List Row} :
    s ∈ insertSorted le r l ↔ s = r ∨ s ∈ l := by
  induction l with
  | nil => simp [insertSorted]
  | cons a as ih =>
      cases h : le r a
      · simp only [insertSorted, h, Bool.false_eq_true, if_false, List.mem_cons, ih]
        tauto
      · simp [insertSorted, h, ih]

/-- Sorting permutes the rows: membership is unchanged. -/
theorem mem_sortRows {le : Row → Row → Bool} {s : Row} {l : List Row} :
    s ∈ sortRows le l ↔ s ∈ l := by
  induction l with
  | nil => simp [sortRows]
  | cons a as ih => simp [sortRows, mem_insertSorted, ih]

/-- Every row surviving deduplication comes from the input list. -/
theorem dedupBy_subset {seen : List String} {l : List Row} {r : Row}
    (h : r ∈ dedupBy seen l) : r ∈ l := by
  induction l generalizing seen with
  | nil => simp [dedupBy] at h
  | cons a as ih =>
      by_cases ha : a.address ∈ seen
      · simp only [dedupBy, if_pos ha] at h
        exact List.mem_cons_of_mem _ (ih h)
      · simp only [dedupBy, if_neg ha, List.mem_cons] at h
        rcases h with rfl | h
        · exact List.mem_cons_self _ _
        · exact List.mem_cons_of_mem _ (ih h)

/-- Every row surviving deduplication has an unseen address and is the FIRST
row of the input carrying that address. -/
theorem dedupBy_first {seen : List String} {l : List Row} {r : Row}
    (h : r ∈ dedupBy seen l) :
    r.address ∉ seen ∧ l.find? (fun s => s.address == r.address) = some r := by
  induction l generalizing seen with
  | nil => simp [dedupBy] at h
  | cons a as ih =>
      by_cases ha : a.address ∈ seen
      · simp only [dedupBy, if_pos ha] at h
        obtain ⟨hn, hf⟩ := ih h
        have hne : (a.address == r.address) = false := by
          simp only [beq_eq_false_iff_ne, ne_eq]
          intro hEq
          exact hn (hEq ▸ ha)
        exact ⟨hn, by rw [List.find?_cons_of_neg _ (by simp [hne]), hf]⟩
      · simp only [dedupBy, if_neg ha, List.mem_cons] at h
        rcases h with rfl | h
        · exact ⟨ha, by rw [List.find?_cons_of_pos _ (by simp)]⟩
        · obtain ⟨hn, hf⟩ := ih h
          simp only [List.mem_cons, not_or] at hn
          have hne : (a.address == r.address) = false := by
            simp only [beq_eq_false_iff_ne, ne_eq]
            exact fun hEq => hn.1 hEq.symm
          exact ⟨hn.2, by rw [List.find?_cons_of_neg _ (by simp [hne]), hf]⟩

/-- After deduplication no two surviving rows share an address, and no
surviving address was already seen. -/
theorem dedupBy_addr_nodup (seen : List String) (l : List Row) :
    ((dedupBy seen l).map Row.address).Nodup ∧
    ∀ r ∈ dedupBy seen l, r.address ∉ seen := by
  induction l generalizing seen with
  | nil => simp [dedupBy]
  | cons a as ih =>
      by_cases ha : a.address ∈ seen
      · simpa only [dedupBy, if_pos ha] using ih seen
      · obtain ⟨ihnd, ihseen⟩ := ih (a.address :: seen)
        simp only [dedupBy, if_neg ha, List.map_cons, List.nodup_cons, List.mem_cons]
        refine ⟨⟨?_, ihnd⟩, ?_⟩
        · intro hmem
          obtain ⟨s, hs, hsa⟩ := List.mem_map.mp hmem
          exact ihseen s hs (by simp [hsa])
        · rintro r (rfl | hr)
          · exact ha
          · have := ihseen r hr
            simp only [List.mem_cons, not_or] at this
            exact this.2

/-- Every input address whose value is not yet seen survives deduplication on
some row. -/
theorem dedupBy_covers {seen : List String} {l : List Row} {r : Row}
    (h : r ∈ l) (hs : r.address ∉ seen) :
    ∃ s ∈ dedupBy seen l, s.address = r.address := by
  induction l generalizing seen with
  | nil => simp at h
  | cons a as ih =>
      rcases List.mem_cons.mp h with rfl | h
      · have ha : r.address ∉ seen := hs
        refine ⟨r, ?_, rfl⟩
        simp [dedupBy, if_neg ha]
      · by_cases ha : a.address ∈ seen
        · obtain ⟨s, hsmem, hsa⟩ := ih h hs
          exact ⟨s, by simp [dedupBy, if_pos ha, hsmem], hsa⟩
        · by_cases heq : r.address = a.address
          · exact ⟨a, by simp [dedupBy, if_neg ha], heq.symm⟩
          · have hs' : r.address ∉ a.address :: seen := by
              simp only [List.mem_cons, not_or]
              exact ⟨heq, hs⟩
            obtain ⟨s, hsmem, hsa⟩ := ih h hs'
            exact ⟨s, by simp [dedupBy, if_neg ha, List.mem_cons, hsmem], hsa⟩

/-- Deduplication is the identity when the addresses are already pairwise
distinct and none was seen before. -/
theorem dedupBy_eq_self {l : List Row} {seen : List String}
    (hd : (l.map Row.address).Nodup) (hs : ∀ r ∈ l, r.address ∉ seen) :
    dedupBy seen l = l := by
  induction l generalizing seen with
  | nil => rfl
  | cons a as ih =>
      simp only [List.map_cons, List.nodup_cons] at hd
      rw [dedupBy, if_neg (hs a (List.mem_cons_self a as))]
      congr 1
      refine ih hd.2 ?_
      intro r hr
      simp only [List.mem_cons, not_or]
      refine ⟨?_, hs r (List.mem_cons_of_mem a hr)⟩
      intro hEq
      exact hd.1 (List.mem_map.mpr ⟨r, hr, hEq⟩)

/-- Filtering drops at least the given failing element, so the filtered list
is strictly shorter. -/
theorem length_filter_lt {p : Row → Bool} {l : List Row} {r : Row}
    (hr : r ∈ l) (hp : p r = false) : (l.filter p).length < l.length := by
  induction l with
  | nil => simp at hr
  | cons a as ih =>
      rcases List.mem_cons.mp hr with rfl | h
      · simp only [List.filter_cons, hp, List.length_cons]
        exact Nat.lt_succ_of_le (List.length_filter_le p as)
      · cases hpa : p a <;> simp only [List.filter_cons, hpa, List.length_cons]
        · exact Nat.lt_succ_of_lt (ih h)
        · exact Nat.succ_lt_succ (ih h)

/-! Claim theorems. -/

/-- C1 (counterexample): the claim fails for the bundle sheets of the
HTML-oriented rules.  On an input holding a single non-HTML row with a
suboptimal title length, the HTML partition is empty, yet the bundle's
`Suboptimal Titles` sheet holds that row — a row absent from the HTML
partition. -/
theorem c1_counterexample :
    (clean_data [rowPdf]).2 = [] ∧
    (runPipeline [rowPdf] 0).suboptimalTitles = [(rowPdf.address, none, some 10)] :=
  ⟨rfl, rfl⟩

/-- C1 (amended): every standalone rule artifact is a subset of the relation
it filters — the deduplicated working relation for the all-rows rules, the
HTML partition for the HTML-oriented rules.  The bundle sheets of the
HTML-oriented rules, however, are computed from the deduplicated working
relation, not the HTML partition: every entry of the bundle's `Suboptimal
Titles`, `Suboptimal Metas`, `Thin Content`, `Low Readability` and `Near
Duplicates` sheets is the projection of a working-relation row satisfying
that rule's predicate. -/
theorem c1_subset_amended (raw : List Row) (now : Int) :
    slow_pages (clean_data raw).1 ⊆ (clean_data raw).1 ∧
    non_index (clean_data raw).1 ⊆ (clean_data raw).1 ∧
    missing_canonical (clean_data raw).1 ⊆ (clean_data raw).1 ∧
    deep_pages (clean_data raw).1 ⊆ (clean_data raw).1 ∧
    low_inlinks (clean_data raw).1 ⊆ (clean_data raw).1 ∧
    large_pages (clean_data raw).1 ⊆ (clean_data raw).1 ∧
    outdated now (clean_data raw).1 ⊆ (clean_data raw).1 ∧
    old_http (clean_data raw).1 ⊆ (clean_data raw).1 ∧
    errors_4xx (clean_data raw).1 ⊆ (clean_data raw).1 ∧
    suboptimal_titles (clean_data raw).2 ⊆ (clean_data raw).2 ∧
    suboptimal_metas (clean_data raw).2 ⊆ (clean_data raw).2 ∧
    dup_title_rows (clean_data raw).2 ⊆ (clean_data raw).2 ∧
    thin_pages (clean_data raw).2 ⊆ (clean_data raw).2 ∧
    low_readability (clean_data raw).2 ⊆ (clean_data raw).2 ∧
    near_dups (clean_data raw).2 ⊆ (clean_data raw).2 ∧
    (∀ x ∈ (runPipeline raw now).suboptimalTitles,
        ∃ r ∈ (clean_data raw).1, x = projTitles r) ∧
    (∀ x ∈ (runPipeline raw now).suboptimalMetas,
        ∃ r ∈ (clean_data raw).1, x = (r.address, r.metaDescription, r.metaLength)) ∧
    (∀ x ∈ (runPipeline raw now).thinContent,
        ∃ r ∈ (clean_data raw).1, x = (r.address, r.wordCount)) ∧
    (∀ x ∈ (runPipeline raw now).lowReadability,
        ∃ r ∈ (clean_data raw).1, x = (r.address, r.fleschScore)) ∧
    (∀ x ∈ (runPipeline raw now).nearDuplicates,
        ∃ r ∈ (clean_data raw).1, x = (r.address, r.similarityMatch)) := by
  refine ⟨List.filter_subset' _, List.filter_subset' _, List.filter_subset' _,
    List.filter_subset' _, ?_, List.filter_subset' _, List.filter_subset' _,
    List.filter_subset' _, List.filter_subset' _, List.filter_subset' _,
    List.filter_subset' _, List.filter_subset' _, List.filter_subset' _,
    List.filter_subset' _, ?_, ?_, ?_, ?_, ?_, ?_⟩
  · intro a ha
    rw [low_inlinks, mem_sortRows] at ha
    exact List.filter_subset' _ ha
  · intro a ha
    rw [near_dups, mem_sortRows] at ha
    exact List.filter_subset' _ ha
  all_goals
    intro x hx
    simp only [runPipeline, generate_report, List.mem_map] at hx
    obtain ⟨r, hr, rfl⟩ := hx
    exact ⟨r, List.filter_subset' _ hr, rfl⟩

/-- C1 (witness): the amended subset theorem at concrete inputs — row (b)
kept by the slow-pages rule is in the working relation, and the entry of the
bundle's `Suboptimal Titles` sheet produced by the PDF row is the projection
of a working-relation row. -/
theorem c1_subset_amended_witness :
    fillDefaults rowB ∈ (clean_data [rowA, rowB, rowC]).1 ∧
    (∃ r ∈ (clean_data [rowPdf]).1,
        (rowPdf.address, (none : Option String), some (10 : Rat)) = projTitles r) :=
  ⟨(c1_subset_amended [rowA, rowB, rowC] 0).1 (by decide),
   (c1_subset_amended [rowPdf] 0).2.2.2.2.2.2.2.2.2.2.2.2.2.2.2.1
     (rowPdf.address, none, some 10) (by decide)⟩

/-- C2 (counterexample): the HTML partition is carved out before
deduplication, so two raw rows with the same address both land in it.  Here
the partition holds two distinct rows sharing one address. -/
theorem c2_counterexample :
    (clean_data [rowDupHtml, rowDupHtml2]).2 =
      [fillDefaults rowDupHtml, fillDefaults rowDupHtml2] ∧
    (fillDefaults rowDupHtml).address = (fillDefaults rowDupHtml2).address ∧
    fillDefaults rowDupHtml ≠ fillDefaults rowDupHtml2 :=
  ⟨rfl, rfl, by decide⟩

/-- C2 (amended): after normalization the deduplicated working relation has
pairwise distinct addresses; every surviving row is exactly the first filled
row carrying its address (kept unmerged), and every input address survives on
some row — later duplicates are dropped silently.  The HTML partition, taken
before deduplication, is not covered by this guarantee. -/
theorem c2_dedup_amended (raw : List Row) :
    ((clean_data raw).1.map Row.address).Nodup ∧
    (∀ r ∈ (clean_data raw).1,
        (raw.map fillDefaults).find? (fun s => s.address == r.address) = some r) ∧
    (∀ r ∈ raw.map fillDefaults,
        ∃ s ∈ (clean_data raw).1, s.address = r.address) := by
  refine ⟨(dedupBy_addr_nodup [] (raw.map fillDefaults)).1, ?_, ?_⟩
  · intro r hr
    exact (dedupBy_first hr).2
  · intro r hr
    exact dedupBy_covers hr (by simp)

/-- C2 (witness): on the duplicated-address input, the surviving row is the
first occurrence. -/
theorem c2_dedup_amended_witness :
    ([rowDupHtml, rowDupHtml2].map fillDefaults).find?
        (fun s => s.address == (fillDefaults rowDupHtml).address) =
      some (fillDefaults rowDupHtml) :=
  (c2_dedup_amended [rowDupHtml, rowDupHtml2]).2.1 (fillDefaults rowDupHtml) (by decide)

/-- C3 (counterexample): the outdated-pages rule compares against the
wall-clock instant of the run, so two runs of the unchanged source at
different instants differ: a row last modified at the epoch is not outdated
at instant `365 * 86400` but is at one second later. -/
theorem c3_counterexample :
    runPipeline [rowStale] (365 * 86400) ≠ runPipeline [rowStale] (365 * 86400 + 1) ∧
    (runPipeline [rowStale] (365 * 86400)).outdatedPages = [] ∧
    (runPipeline [rowStale] (365 * 86400 + 1)).outdatedPages =
      [("https://example.com/old", some 0)] :=
  ⟨by decide, rfl, rfl⟩

/-- C3 (amended): the pipeline is a deterministic function of the source
relation and the run instant.  Two runs on an unchanged source agree on
every bundle sheet except `Outdated Pages`, whose predicate reads the run's
wall clock; runs sharing one instant produce identical bundles. -/
theorem c3_idempotence_amended (raw : List Row) (t₁ t₂ : Int) :
    (runPipeline raw t₁).htmlPages = (runPipeline raw t₂).htmlPages ∧
    (runPipeline raw t₁).errors4xx = (runPipeline raw t₂).errors4xx ∧
    (runPipeline raw t₁).slowPages = (runPipeline raw t₂).slowPages ∧
    (runPipeline raw t₁).missingCanonical = (runPipeline raw t₂).missingCanonical ∧
    (runPipeline raw t₁).suboptimalTitles = (runPipeline raw t₂).suboptimalTitles ∧
    (runPipeline raw t₁).suboptimalMetas = (runPipeline raw t₂).suboptimalMetas ∧
    (runPipeline raw t₁).thinContent = (runPipeline raw t₂).thinContent ∧
    (runPipeline raw t₁).lowReadability = (runPipeline raw t₂).lowReadability ∧
    (runPipeline raw t₁).nearDuplicates = (runPipeline raw t₂).nearDuplicates ∧
    (runPipeline raw t₁).deepPages = (runPipeline raw t₂).deepPages ∧
    (runPipeline raw t₁).lowInlinks = (runPipeline raw t₂).lowInlinks ∧
    (runPipeline raw t₁).largePages = (runPipeline raw t₂).largePages ∧
    (runPipeline raw t₁).http11Pages = (runPipeline raw t₂).http11Pages ∧
    (t₁ = t₂ → runPipeline raw t₁ = runPipeline raw t₂) := by
  refine ⟨rfl, rfl, rfl, rfl, rfl, rfl, rfl, rfl, rfl, rfl, rfl, rfl, rfl, ?_⟩
  intro h
  rw [h]

/-- C3 (witness): the amended theorem applied at one concrete source and a
shared run instant yields a fully identical bundle. -/
theorem c3_idempotence_amended_witness :
    runPipeline [rowStale] 0 = runPipeline [rowStale] 0 :=
  (c3_idempotence_amended [rowStale] 0 0).2.2.2.2.2.2.2.2.2.2.2.2.2 rfl

/-- C4: on the concrete three-row input — (a) status 200, response 0.3 s,
title length 55; (b) status 404, response 0.8 s, title length 45; (c) status
200, response 0.2 s, title length 65 — the slow-pages result is exactly row
(b), the suboptimal-titles result is exactly rows (b) and (c), and the
bundle's `4xx Errors` sheet is exactly row (b). -/
theorem c4_end_to_end_scenario (now : Int) :
    slow_pages (clean_data [rowA, rowB, rowC]).1 = [fillDefaults rowB] ∧
    suboptimal_titles (clean_data [rowA, rowB, rowC]).2 =
      [fillDefaults rowB, fillDefaults rowC] ∧
    (runPipeline [rowA, rowB, rowC] now).errors4xx = [(rowB.address, some 404)] :=
  ⟨rfl, rfl, rfl⟩

/-- C5: a row with a present title length is kept by the suboptimal-titles
rule exactly when that length is strictly below 50 or strictly above 60; at
the boundaries 50 and 60 the row is not flagged, at 49 and 61 it is. -/
theorem c5_title_threshold (df : List Row) (r : Row) (len : Rat)
    (h : r.titleLength = some len) :
    (r ∈ suboptimal_titles df ↔ r ∈ df ∧ (len < 50 ∨ 60 < len)) ∧
    rowLen 50 ∉ suboptimal_titles [rowLen 50] ∧
    rowLen 60 ∉ suboptimal_titles [rowLen 60] ∧
    rowLen 49 ∈ suboptimal_titles [rowLen 49] ∧
    rowLen 61 ∈ suboptimal_titles [rowLen 61] := by
  refine ⟨?_, by decide, by decide, by decide, by decide⟩
  simp [suboptimal_titles, List.mem_filter, optLt, optGt, h]

/-- C5 (witness): the threshold characterization at the concrete length
49. -/
theorem c5_title_threshold_witness :
    rowLen 49 ∈ suboptimal_titles [rowLen 49] ↔
      rowLen 49 ∈ [rowLen 49] ∧ ((49 : Rat) < 50 ∨ 60 < (49 : Rat)) :=
  (c5_title_threshold [rowLen 49] (rowLen 49) 49 rfl).1

/-- C6: the missing-canonical rule keeps a row exactly when its canonical
link element is missing; a row carrying the empty string is not kept. -/
theorem c6_missing_canonical_rule (df : List Row) (r : Row) :
    (r ∈ missing_canonical df ↔ r ∈ df ∧ r.canonicalLink = none) ∧
    rowEmptyCanon ∉ missing_canonical [rowEmptyCanon] := by
  refine ⟨?_, by decide⟩
  simp [missing_canonical, List.mem_filter, Option.isNone_iff_eq_none]

/-- C6 (witness): the characterization at a concrete row with a missing
canonical link. -/
theorem c6_missing_canonical_rule_witness :
    blankRow ∈ missing_canonical [blankRow] ↔
      blankRow ∈ [blankRow] ∧ blankRow.canonicalLink = none :=
  (c6_missing_canonical_rule [blankRow] blankRow).1

/-- C7: each numeric- or timestamp-comparison rule rejects a row whose
referenced column is missing; in particular a row with a missing
last-modified timestamp is never in the outdated-pages result, at any run
instant. -/
theorem c7_missing_never_matches (df : List Row) (r : Row) (now : Int) :
    (r.responseTime = none → r ∉ slow_pages df) ∧
    (r.wordCount = none → r ∉ thin_pages df) ∧
    (r.fleschScore = none → r ∉ low_readability df) ∧
    (r.nearDuplicates = none → r ∉ near_dups df) ∧
    (r.crawlDepth = none → r ∉ deep_pages df) ∧
    (r.inlinks = none → r ∉ low_inlinks df) ∧
    (r.sizeBytes = none → r ∉ large_pages df) ∧
    (r.lastModified = none → r ∉ outdated now df) := by
  refine ⟨?_, ?_, ?_, ?_, ?_, ?_, ?_, ?_⟩
  · intro h
    simp [slow_pages, List.mem_filter, optGt, h]
  · intro h
    simp [thin_pages, List.mem_filter, optLt, h]
  · intro h
    simp [low_readability, List.mem_filter, optLt, h]
  · intro h
    simp [near_dups, mem_sortRows, List.mem_filter, optGt, h]
  · intro h
    simp [deep_pages, List.mem_filter, optGt, h]
  · intro h
    simp [low_inlinks, mem_sortRows, List.mem_filter, optLt, h]
  · intro h
    simp [large_pages, List.mem_filter, optGt, h]
  · intro h
    simp [outdated, List.mem_filter, optLtInt, h]

/-- C7 (witness): the all-missing row is rejected by the slow-pages and
outdated-pages rules even when it is in the relation. -/
theorem c7_missing_never_matches_witness :
    blankRow ∉ slow_pages [blankRow] ∧ blankRow ∉ outdated 0 [blankRow] :=
  ⟨(c7_missing_never_matches [blankRow] blankRow 0).1 rfl,
   (c7_missing_never_matches [blankRow] blankRow 0).2.2.2.2.2.2.2 rfl⟩

/-- C8: when the source file is absent the run reports the error and aborts:
the pipeline returns the error outcome and no bundle at all, so no rule
result or sheet exists for that run. -/
theorem c8_missing_source_aborts (now : Int) :
    runMain none now = Except.error "Exiting due to file error." ∧
    ∀ b : Bundle, runMain none now ≠ Except.ok b :=
  ⟨rfl, fun _ h => Except.noConfusion h⟩

/-- C8 (witness): at a concrete instant, the aborted run does not equal any
successful run, such as the pipeline on the empty relation. -/
theorem c8_missing_source_aborts_witness :
    runMain none 0 ≠ Except.ok (runPipeline [] 0) :=
  (c8_missing_source_aborts 0).2 (runPipeline [] 0)

/-- C9: both the `Non-Indexable Pages` and the `Missing Canonical` metric
cards display the row count of the bundle's `Missing Canonical` sheet; the
non-indexable rule's own result is not consulted — on a row flagged
non-indexable but carrying a canonical link, the rule finds one row while
both cards display zero. -/
theorem c9_dashboard_cards (b : Bundle) :
    nonIndexableCard b = b.missingCanonical.length ∧
    missingCanonicalCard b = b.missingCanonical.length ∧
    nonIndexableCard (runPipeline [rowNonIdx] 0) = 0 ∧
    missingCanonicalCard (runPipeline [rowNonIdx] 0) = 0 ∧
    (non_index (clean_data [rowNonIdx]).1).length = 1 :=
  ⟨rfl, rfl, rfl, rfl, rfl⟩

/-- C10 (counterexample): the `Total URLs` card counts the `HTML Pages`
sheet, which is taken before deduplication; on an input with a duplicated
HTML address plus one non-HTML row, the card shows 2 while the audit stage
also reports 2 total URLs — not strictly smaller despite the non-HTML
row. -/
theorem c10_counterexample :
    isHtmlRow rowPdf = false ∧
    totalUrlsCard (runPipeline [rowDupHtml, rowDupHtml2, rowPdf] 0) = 2 ∧
    total_urls (clean_data [rowDupHtml, rowDupHtml2, rowPdf]).1 = 2 ∧
    ¬ totalUrlsCard (runPipeline [rowDupHtml, rowDupHtml2, rowPdf] 0) <
        total_urls (clean_data [rowDupHtml, rowDupHtml2, rowPdf]).1 :=
  ⟨rfl, rfl, rfl, by decide⟩

/-- C10 (amended): the `Total URLs` card displays the row count of the
`HTML Pages` sheet; when the input addresses are pairwise distinct and at
least one row is non-HTML, that count is strictly smaller than the audit
stage's total URL count. -/
theorem c10_total_urls_amended (raw : List Row) (now : Int)
    (hnd : (raw.map Row.address).Nodup)
    (hx : ∃ r ∈ raw, isHtmlRow r = false) :
    totalUrlsCard (runPipeline raw now) = (runPipeline raw now).htmlPages.length ∧
    totalUrlsCard (runPipeline raw now) < total_urls (clean_data raw).1 := by
  refine ⟨rfl, ?_⟩
  obtain ⟨r, hr, hrf⟩ := hx
  have hfill : (raw.map fillDefaults).map Row.address = raw.map Row.address := by
    rw [List.map_map]
    rfl
  have hnd' : ((raw.map fillDefaults).map Row.address).Nodup := by
    rw [hfill]
    exact hnd
  have hde : dedupBy [] (raw.map fillDefaults) = raw.map fillDefaults :=
    dedupBy_eq_self hnd' (by simp)
  have hlt : ((raw.map fillDefaults).filter isHtmlRow).length <
      (raw.map fillDefaults).length :=
    length_filter_lt (List.mem_map.mpr ⟨r, hr, rfl⟩) hrf
  show ((runPipeline raw now).htmlPages).length < total_urls (clean_data raw).1
  simpa [runPipeline, generate_report, clean_data, total_urls, hde] using hlt

/-- C10 (witness): on a two-row input with distinct addresses, one HTML and
one PDF, the card shows 1 while the audit total is 2. -/
theorem c10_total_urls_amended_witness :
    totalUrlsCard (runPipeline [rowDupHtml, rowPdf] 0) <
      total_urls (clean_data [rowDupHtml, rowPdf]).1 :=
  (c10_total_urls_amended [rowDupHtml, rowPdf] 0 (by decide) ⟨rowPdf, by decide, rfl⟩).2

end SeoAudit
